import Mathlib

/-!
Verification of the USB HID barcode-scanner server against its specification.

The embedding below models the device-session core of the repository:

* `absorb` is the chunk-processing block of `connect_to_device`
  (`src/server.rs`, the `Ok(bytes_read_size)` arm of the read loop): it
  receives the bytes returned by one successful raw read and the running
  byte counter `count_bytes_read_from_current_report`, extracts the
  3-byte terminator `bytes[(n-3)..n]` and the 3-byte symbology
  `bytes[2..=4]`, and dispatches on the terminator.  The two slice
  extractions are partial in the source (out-of-range slicing aborts the
  process), so `absorb` returns `Except Panic _`.
* `SessionTrans` is the connect/read/reconnect loop of
  `connect_to_device`: open failure retries, a successful open starts a
  fresh read loop with the counter at 0, any read error breaks out of
  the read loop back to enumeration.
* `refresh_devices` (`src/tools.rs`) builds the registry snapshot, and
  `matches` is the device-matching contract; the source delegates the
  actual match to the external `hidapi::open_serial` collaborator, so
  `matches` is modelled from the specification.

Bytes are modelled as `Nat` (the source only compares byte values, never
computes with them, so no wrap-around arithmetic is involved).
-/

namespace ScannerServer

/-- A completed logical scan report, carrying the byte total the source
logs as "{} bytes read in total." when a terminator closes a report. -/
structure CompletedReport where
  total_bytes : Nat
deriving Repr, DecidableEq

/-- The two out-of-bounds slice panics the read-processing block of
`connect_to_device` can hit: `bytes[(n-3)..n]` for `n < 3` (usize
underflow / range out of bounds) and `bytes[2..=4]` for `n < 5`. -/
inductive Panic where
  | terminatorSlice
  | symbologySlice
deriving Repr, DecidableEq

/-- The observable outcome of processing one successful read in
`connect_to_device`: the new value of
`count_bytes_read_from_current_report`, the report total logged if a
terminator closed the report, the 3 symbology bytes logged for this
chunk, and whether the "Unknown termination bytes" warning was logged. -/
structure AbsorbOutput where
  acc : Nat
  report : Option CompletedReport
  symbology : List Nat
  unknownTerminator : Bool
deriving Repr, DecidableEq

/-- The chunk-processing block of `connect_to_device` (`src/server.rs`,
`Ok(bytes_read_size)` arm): `acc` is
`count_bytes_read_from_current_report` before the read and `bytes` is
`&buf[..bytes_read_size]`.  The source first copies
`bytes[(bytes_read_size - 3)..bytes_read_size]` (panics for fewer than 3
bytes), then copies `bytes[2..=4]` (panics for fewer than 5 bytes), then
matches the terminator: `[0, 40, 1]` accumulates and continues,
`[0, 40, 0]` reports the accumulated total without adding this chunk and
resets, `[0, 1, 0]` adds this chunk then reports and resets, and any
other pattern logs a warning, accumulates and continues. -/
def absorb (acc : Nat) (bytes : List Nat) : Except Panic AbsorbOutput :=
  if bytes.length < 3 then .error .terminatorSlice
  else if bytes.length < 5 then .error .symbologySlice
  else if bytes.drop (bytes.length - 3) = [0, 40, 1] then
    .ok ⟨acc + bytes.length, none, (bytes.drop 2).take 3, false⟩
  else if bytes.drop (bytes.length - 3) = [0, 40, 0] then
    .ok ⟨0, some ⟨acc⟩, (bytes.drop 2).take 3, false⟩
  else if bytes.drop (bytes.length - 3) = [0, 1, 0] then
    .ok ⟨0, some ⟨acc + bytes.length⟩, (bytes.drop 2).take 3, false⟩
  else
    .ok ⟨acc + bytes.length, none, (bytes.drop 2).take 3, true⟩

/-- Session state of `connect_to_device`: `disconnected` is the top of
the outer loop (about to refresh the device list and try `open_serial`),
`connected acc` is the inner read loop with
`count_bytes_read_from_current_report = acc`, and `crashed` is the state
after an uncaught panic aborted the process. -/
inductive SessionState where
  | disconnected
  | connected (acc : Nat)
  | crashed
deriving Repr, DecidableEq

/-- The environment's response to one blocking call the session makes:
the result of `open_serial`, or the result of `device.read`. -/
inductive IOEvent where
  | openOk
  | openErr
  | readOk (bytes : List Nat)
  | readErr
deriving Repr, DecidableEq

/-- One iteration of `connect_to_device`'s loops.  From the outer loop,
a failed open sleeps and retries, and a successful open enters the read
loop with the byte counter initialised to 0.  From the read loop, a
successful read is processed by `absorb` (a panic aborts the process),
and a read error sleeps, breaks out of the read loop — dropping the
handle — and resumes enumeration. -/
inductive SessionTrans : SessionState → IOEvent → SessionState → Prop where
  | openOk : SessionTrans .disconnected .openOk (.connected 0)
  | openErr : SessionTrans .disconnected .openErr .disconnected
  | readOk (acc : Nat) (bytes : List Nat) (out : AbsorbOutput) :
      absorb acc bytes = .ok out →
      SessionTrans (.connected acc) (.readOk bytes) (.connected out.acc)
  | readPanic (acc : Nat) (bytes : List Nat) (p : Panic) :
      absorb acc bytes = .error p →
      SessionTrans (.connected acc) (.readOk bytes) .crashed
  | readErr (acc : Nat) :
      SessionTrans (.connected acc) .readErr .disconnected

/-- One attached device as reported by the enumeration collaborator:
vendor id, product id and optional serial number (`src/tools.rs`,
`refresh_devices` reads these fields of each `hidapi` device entry). -/
structure HidDeviceInfo where
  vendor_id : Nat
  product_id : Nat
  serial_number : Option String
deriving Repr, DecidableEq

/-- `UsbDeviceIdentifier` from `src/devices.rs`: a device is identified
by vendor and product id, optionally narrowed by a serial number. -/
inductive UsbDeviceIdentifier where
  | VidPid (vid pid : Nat)
  | VidPidSn (vid pid : Nat) (sn : String)
deriving Repr, DecidableEq

/-- Vendor id of an identifier. -/
def UsbDeviceIdentifier.vid : UsbDeviceIdentifier → Nat
  | .VidPid v _ => v
  | .VidPidSn v _ _ => v

/-- Product id of an identifier. -/
def UsbDeviceIdentifier.pid : UsbDeviceIdentifier → Nat
  | .VidPid _ p => p
  | .VidPidSn _ p _ => p

/-- Serial number of an identifier, when it carries one. -/
def UsbDeviceIdentifier.sn? : UsbDeviceIdentifier → Option String
  | .VidPid _ _ => none
  | .VidPidSn _ _ s => some s

/-- `refresh_devices` from `src/tools.rs`: each enumerated device with
no serial number becomes a `VidPid` entry, and each device with a serial
number becomes a `VidPidSn` entry carrying that serial (the source's
`as_deref().unwrap_or("")` runs in the branch where the serial is known
present, so it yields exactly that serial). -/
def refresh_devices (devices : List HidDeviceInfo) : List UsbDeviceIdentifier :=
  devices.map fun d =>
    match d.serial_number with
    | none => .VidPid d.vendor_id d.product_id
    | some sn => .VidPidSn d.vendor_id d.product_id sn

/-- Modelled from the spec: the device-matching check of §4.1.  The
source delegates matching to the external `hidapi::open_serial`
collaborator, so no matching function exists under `src/`; per the
specification, a registry snapshot matches a target identifier iff some
entry has equal vendor and product ids and, when the target carries a
serial-number constraint, that entry's serial number equals the target's
exactly.  (Named `registryMatches` because `matches` is reserved in
Lean.) -/
def registryMatches (registry : List UsbDeviceIdentifier)
    (target : UsbDeviceIdentifier) : Bool :=
  registry.any fun entry =>
    entry.vid == target.vid && entry.pid == target.pid &&
      match target.sn? with
      | none => true
      | some sn => entry.sn? == some sn

/-- Characterisation of `absorb` on chunks long enough not to panic:
the result is determined by the last 3 bytes, with the symbology always
taken from offsets 2 through 4 of this chunk. -/
theorem absorb_of_five_le (acc : Nat) (bytes : List Nat)
    (h : 5 ≤ bytes.length) :
    absorb acc bytes =
      if bytes.drop (bytes.length - 3) = [0, 40, 1] then
        .ok ⟨acc + bytes.length, none, (bytes.drop 2).take 3, false⟩
      else if bytes.drop (bytes.length - 3) = [0, 40, 0] then
        .ok ⟨0, some ⟨acc⟩, (bytes.drop 2).take 3, false⟩
      else if bytes.drop (bytes.length - 3) = [0, 1, 0] then
        .ok ⟨0, some ⟨acc + bytes.length⟩, (bytes.drop 2).take 3, false⟩
      else
        .ok ⟨acc + bytes.length, none, (bytes.drop 2).take 3, true⟩ := by
  unfold absorb
  rw [if_neg (by omega), if_neg (by omega)]

/-- `absorb` panics on the terminator slice for chunks shorter than 3. -/
theorem absorb_err_of_lt_three (acc : Nat) (bytes : List Nat)
    (h : bytes.length < 3) :
    absorb acc bytes = .error .terminatorSlice := by
  unfold absorb
  rw [if_pos h]

/-- `absorb` panics on the symbology slice for chunks of length 3 or 4. -/
theorem absorb_err_of_lt_five (acc : Nat) (bytes : List Nat)
    (h3 : 3 ≤ bytes.length) (h5 : bytes.length < 5) :
    absorb acc bytes = .error .symbologySlice := by
  unfold absorb
  rw [if_neg (by omega), if_pos h5]

/-- C9: absorbing a successfully read chunk is panic-free exactly when
the read length is at least 5, because the symbology bytes at offsets 2
through 4 are extracted unconditionally from every chunk; for a
successful read of length 3 or 4 the slice copy out of `bytes[2..=4]`
aborts the session with an out-of-bounds panic. -/
theorem absorb_panic_free_iff_five_le (acc : Nat) (bytes : List Nat) :
    ((∃ out, absorb acc bytes = .ok out) ↔ 5 ≤ bytes.length) ∧
    (bytes.length = 3 ∨ bytes.length = 4 →
      absorb acc bytes = .error .symbologySlice) := by
  constructor
  · constructor
    · rintro ⟨out, hout⟩
      by_contra h
      rcases Nat.lt_or_ge bytes.length 3 with h3 | h3
      · rw [absorb_err_of_lt_three acc bytes h3] at hout
        exact Except.noConfusion hout
      · rw [absorb_err_of_lt_five acc bytes h3 (by omega)] at hout
        exact Except.noConfusion hout
    · intro h
      rw [absorb_of_five_le acc bytes h]
      split_ifs <;> exact ⟨_, rfl⟩
  · intro h
    exact absorb_err_of_lt_five acc bytes (by omega) (by omega)

/-- Witness for C9 at a length-3 chunk (which panics) and a length-5
chunk (which succeeds). -/
theorem absorb_panic_free_iff_five_le_witness :
    (([9, 9, 9] : List Nat).length = 3 ∨ ([9, 9, 9] : List Nat).length = 4) ∧
    absorb 0 [9, 9, 9] = .error .symbologySlice ∧
    (∃ out, absorb 0 [9, 9, 9, 9, 9] = .ok out) :=
  ⟨Or.inl rfl,
   (absorb_panic_free_iff_five_le 0 [9, 9, 9]).2 (Or.inl rfl),
   ((absorb_panic_free_iff_five_le 0 [9, 9, 9, 9, 9]).1).2 (by decide)⟩

/-- C3 (code bug): the source does not reject short reads as a
recoverable `FramingViolation`; evaluating the chunk-processing block at
a successful read of exactly 3 bytes panics on the symbology slice
`bytes[2..=4]`, and at a read of 2 bytes panics on the terminator slice
`bytes[(n-3)..n]`, aborting the session in both cases. -/
theorem short_read_panics_at_failing_input :
    absorb 0 [2, 40, 0] = .error .symbologySlice ∧
    absorb 0 [40, 0] = .error .terminatorSlice :=
  ⟨rfl, rfl⟩

/-- C4: the two end-of-report terminators differ in whether the final
chunk counts toward the reported total: a chunk ending in `[0, 40, 0]`
reports exactly the previously accumulated bytes (its own length is not
added), while a chunk ending in `[0, 1, 0]` adds its own length before
reporting; in both cases the accumulator is reset to 0. -/
theorem end_terminators_counting_distinction (acc : Nat)
    (chunk : List Nat) (h : 5 ≤ chunk.length) :
    (chunk.drop (chunk.length - 3) = [0, 40, 0] →
      absorb acc chunk =
        .ok ⟨0, some ⟨acc⟩, (chunk.drop 2).take 3, false⟩) ∧
    (chunk.drop (chunk.length - 3) = [0, 1, 0] →
      absorb acc chunk =
        .ok ⟨0, some ⟨acc + chunk.length⟩, (chunk.drop 2).take 3, false⟩) := by
  rw [absorb_of_five_le acc chunk h]
  constructor <;> intro ht <;> simp [ht]

/-- Witness for C4: a 6-byte chunk ending in `[0, 40, 0]` reports the
prior total 100 (not 106), and one ending in `[0, 1, 0]` reports
100 + 6 = 106; both reset the accumulator. -/
theorem end_terminators_counting_distinction_witness :
    5 ≤ ([7, 7, 7, 0, 40, 0] : List Nat).length ∧
    ([7, 7, 7, 0, 40, 0] : List Nat).drop 3 = [0, 40, 0] ∧
    absorb 100 [7, 7, 7, 0, 40, 0] =
      .ok ⟨0, some ⟨100⟩, [7, 0, 40], false⟩ ∧
    ([7, 7, 7, 0, 1, 0] : List Nat).drop 3 = [0, 1, 0] ∧
    absorb 100 [7, 7, 7, 0, 1, 0] =
      .ok ⟨0, some ⟨106⟩, [7, 0, 1], false⟩ :=
  ⟨by decide, by decide,
   (end_terminators_counting_distinction 100 [7, 7, 7, 0, 40, 0]
      (by decide)).1 (by decide),
   by decide,
   (end_terminators_counting_distinction 100 [7, 7, 7, 0, 1, 0]
      (by decide)).2 (by decide)⟩

/-- C7: a chunk of processable length whose last 3 bytes are none of
the recognised terminators adds its length to the accumulator, logs the
unknown-terminator warning, emits no completed report, and leaves the
report ongoing (no reset). -/
theorem unknown_terminator_fail_open (acc : Nat) (chunk : List Nat)
    (h : 5 ≤ chunk.length)
    (h1 : chunk.drop (chunk.length - 3) ≠ [0, 40, 1])
    (h2 : chunk.drop (chunk.length - 3) ≠ [0, 40, 0])
    (h3 : chunk.drop (chunk.length - 3) ≠ [0, 1, 0]) :
    absorb acc chunk =
      .ok ⟨acc + chunk.length, none, (chunk.drop 2).take 3, true⟩ := by
  rw [absorb_of_five_le acc chunk h]
  rw [if_neg h1, if_neg h2, if_neg h3]

/-- Witness for C7 at a 5-byte chunk with unrecognised terminator
`[9, 9, 9]`. -/
theorem unknown_terminator_fail_open_witness :
    5 ≤ ([1, 2, 3, 9, 9, 9] : List Nat).length ∧
    absorb 41 [1, 2, 3, 9, 9, 9] = .ok ⟨47, none, [3, 9, 9], true⟩ := by
  refine ⟨by decide, ?_⟩
  have h := unknown_terminator_fail_open 41 [1, 2, 3, 9, 9, 9]
    (by decide) (by decide) (by decide) (by decide)
  simpa using h

/-- C8 (Scenario B): a single chunk of 50 bytes ending in `[0, 1, 0]`,
absorbed with the accumulator at 0, immediately reports a total of 50
bytes, and the accumulator is 0 afterwards. -/
theorem scenarioB_single_chunk_report (chunk : List Nat)
    (hlen : chunk.length = 50)
    (ht : chunk.drop (chunk.length - 3) = [0, 1, 0]) :
    absorb 0 chunk = .ok ⟨0, some ⟨50⟩, (chunk.drop 2).take 3, false⟩ := by
  rw [hlen] at ht
  rw [absorb_of_five_le 0 chunk (by omega)]
  simp [ht, hlen]

/-- Witness for C8 at a concrete 50-byte chunk. -/
theorem scenarioB_single_chunk_report_witness :
    (List.replicate 47 0 ++ [0, 1, 0] : List Nat).length = 50 ∧
    absorb 0 (List.replicate 47 0 ++ [0, 1, 0]) =
      .ok ⟨0, some ⟨50⟩, [0, 0, 0], false⟩ := by
  refine ⟨by decide, ?_⟩
  have h := scenarioB_single_chunk_report (List.replicate 47 0 ++ [0, 1, 0])
    (by decide) (by decide)
  simpa using h

/-- First chunk of Scenario A: 64 bytes ending in `[0, 40, 1]`. -/
def chunkA1 : List Nat := List.replicate 61 0 ++ [0, 40, 1]

/-- Second chunk of Scenario A: 40 bytes ending in `[0, 40, 0]`. -/
def chunkA2 : List Nat := List.replicate 37 0 ++ [0, 40, 0]

/-- C1 counterexample: on Scenario A's two chunks the first absorb call
returns no report and advances the accumulator to 64, but the second —
whose terminator is `[0, 40, 0]` — reports a total of 64, not 104: the
second chunk's 40 bytes are not counted. -/
theorem scenarioA_total_is_64_not_104 :
    absorb 0 chunkA1 = .ok ⟨64, none, [0, 0, 0], false⟩ ∧
    absorb 64 chunkA2 = .ok ⟨0, some ⟨64⟩, [0, 0, 0], false⟩ ∧
    (64 : Nat) ≠ 104 :=
  ⟨rfl, rfl, by decide⟩

/-- C1 amended: for Scenario A's chunk shapes — a first read of 64
bytes ending in `[0, 40, 1]`, then a second read of 40 bytes ending in
`[0, 40, 0]` — the first absorb call returns no report and accumulates
64 bytes, and the second emits a `CompletedReport` whose total is 64:
only the first chunk's length is counted, because the `[0, 40, 0]`
terminator does not add the final chunk's length. -/
theorem scenarioA_amended (c1 c2 : List Nat)
    (h1 : c1.length = 64) (ht1 : c1.drop (c1.length - 3) = [0, 40, 1])
    (h2 : c2.length = 40) (ht2 : c2.drop (c2.length - 3) = [0, 40, 0]) :
    absorb 0 c1 = .ok ⟨64, none, (c1.drop 2).take 3, false⟩ ∧
    absorb 64 c2 = .ok ⟨0, some ⟨64⟩, (c2.drop 2).take 3, false⟩ := by
  rw [h1] at ht1
  rw [h2] at ht2
  constructor
  · rw [absorb_of_five_le 0 c1 (by omega)]
    simp [ht1, h1]
  · rw [absorb_of_five_le 64 c2 (by omega)]
    simp [ht2, h2]

/-- Witness for C1's amended claim at the concrete Scenario A chunks. -/
theorem scenarioA_amended_witness :
    chunkA1.length = 64 ∧ chunkA1.drop (chunkA1.length - 3) = [0, 40, 1] ∧
    chunkA2.length = 40 ∧ chunkA2.drop (chunkA2.length - 3) = [0, 40, 0] ∧
    absorb 0 chunkA1 = .ok ⟨64, none, [0, 0, 0], false⟩ ∧
    absorb 64 chunkA2 = .ok ⟨0, some ⟨64⟩, [0, 0, 0], false⟩ := by
  refine ⟨by decide, by decide, by decide, by decide, ?_⟩
  have h := scenarioA_amended chunkA1 chunkA2
    (by decide) (by decide) (by decide) (by decide)
  simpa [chunkA1, chunkA2] using h

/-- First chunk of a two-chunk report whose symbology bytes (offsets 2
through 4) are `]C1` = `[93, 67, 49]`; 64 bytes ending in `[0, 40, 1]`. -/
def chunkS1 : List Nat := [0, 0, 93, 67, 49] ++ List.replicate 56 0 ++ [0, 40, 1]

/-- Second chunk of the same report with different bytes `[93, 69, 48]`
at offsets 2 through 4; 40 bytes ending in `[0, 40, 0]`. -/
def chunkS2 : List Nat := [0, 0, 93, 69, 48] ++ List.replicate 32 0 ++ [0, 40, 0]

/-- C5 counterexample: within one logical report, the symbology the
source decodes and logs while absorbing the second chunk is taken from
that chunk's own bytes at offsets 2 through 4 (`[93, 69, 48]`), not from
the first chunk's (`[93, 67, 49]`): later chunks do affect the recorded
symbology, and nothing retains the first chunk's value (the only state
carried across chunks is the byte counter). -/
theorem symbology_not_retained_counterexample :
    absorb 0 chunkS1 = .ok ⟨64, none, [93, 67, 49], false⟩ ∧
    absorb 64 chunkS2 = .ok ⟨0, some ⟨64⟩, [93, 69, 48], false⟩ ∧
    ([93, 69, 48] : List Nat) ≠ [93, 67, 49] :=
  ⟨rfl, rfl, by decide⟩

/-- C5 amended: the symbology identifier is extracted from the bytes at
offsets 2 through 4 of every absorbed chunk — whether or not the
accumulator is 0 — and is logged per chunk; no symbology is retained
across the chunks of a logical report. -/
theorem symbology_per_chunk_amended (acc : Nat) (chunk : List Nat)
    (h : 5 ≤ chunk.length) :
    ∃ out, absorb acc chunk = .ok out ∧
      out.symbology = (chunk.drop 2).take 3 := by
  rw [absorb_of_five_le acc chunk h]
  split_ifs <;> exact ⟨_, rfl, rfl⟩

/-- Witness for C5's amended claim: a mid-report chunk (accumulator at
64) yields the symbology taken from its own offsets 2 through 4. -/
theorem symbology_per_chunk_amended_witness :
    5 ≤ chunkS2.length ∧
    ∃ out, absorb 64 chunkS2 = .ok out ∧
      out.symbology = (chunkS2.drop 2).take 3 :=
  ⟨by decide, symbology_per_chunk_amended 64 chunkS2 (by decide)⟩

/-- C2 counterexample: a run in which the session connects and then a
single read fails — one consecutive failure, fewer than 3 — already
ends in `disconnected`: the loop drops the handle and restarts
enumeration after the very first read error, so there is no
3-consecutive-failure threshold. -/
theorem single_read_failure_disconnects :
    SessionTrans .disconnected .openOk (.connected 0) ∧
    SessionTrans (.connected 0) .readErr .disconnected :=
  ⟨.openOk, .readErr 0⟩

/-- C2 amended: while connected, every read failure — already the first
one — disconnects the session (the handle is dropped, the loop waits and
restarts enumeration); the source keeps no consecutive-failure counter.
A successful read keeps the loop reading on the same handle, carrying
the accumulator `absorb` produces. -/
theorem read_failure_policy_amended (acc : Nat) :
    (∀ s, SessionTrans (.connected acc) .readErr s ↔ s = .disconnected) ∧
    (∀ bytes out, absorb acc bytes = .ok out →
      SessionTrans (.connected acc) (.readOk bytes) (.connected out.acc)) := by
  constructor
  · intro s
    constructor
    · intro h
      cases h
      rfl
    · intro h
      rw [h]
      exact .readErr acc
  · intro bytes out h
    exact .readOk acc bytes out h

/-- Witness for C2's amended claim: from `connected 7`, a read error
transitions to `disconnected`, and a successful 5-byte read with an
unknown terminator keeps the session connected with the accumulator
advanced to 12. -/
theorem read_failure_policy_amended_witness :
    absorb 7 [1, 2, 3, 4, 5] = .ok ⟨12, none, [3, 4, 5], true⟩ ∧
    SessionTrans (.connected 7) .readErr .disconnected ∧
    SessionTrans (.connected 7) (.readOk [1, 2, 3, 4, 5]) (.connected 12) :=
  ⟨rfl,
   ((read_failure_policy_amended 7).1 .disconnected).mpr rfl,
   (read_failure_policy_amended 7).2 [1, 2, 3, 4, 5]
     ⟨12, none, [3, 4, 5], true⟩ rfl⟩

/-- C10: the byte accumulator is scoped to a single connection — after
a read error disconnects the session, any subsequent successful open
begins the new read loop with the accumulator at 0, so partially
accumulated bytes of the interrupted report never carry over. -/
theorem reconnect_resets_accumulator (acc : Nat) (s t : SessionState)
    (hdrop : SessionTrans (.connected acc) .readErr s)
    (hopen : SessionTrans s .openOk t) :
    t = .connected 0 := by
  cases hdrop
  cases hopen
  rfl

/-- Witness for C10: a disconnect from `connected 64` followed by a
successful reopen lands in `connected 0`. -/
theorem reconnect_resets_accumulator_witness :
    SessionTrans (.connected 64) .readErr .disconnected ∧
    SessionTrans .disconnected .openOk (.connected 0) ∧
    (SessionState.connected 0 = .connected 0) :=
  ⟨.readErr 64, .openOk,
   reconnect_resets_accumulator 64 .disconnected (.connected 0)
     (.readErr 64) .openOk⟩

/-- One entry satisfies the modelled matching predicate exactly when
its ids equal the target's and the target's serial constraint, if any,
is met exactly. -/
theorem entry_matches_target_iff (e I : UsbDeviceIdentifier) :
    (e.vid == I.vid && e.pid == I.pid &&
      match I.sn? with
      | none => true
      | some sn => e.sn? == some sn) = true ↔
    (e.vid = I.vid ∧ e.pid = I.pid ∧ (I.sn? = none ∨ e.sn? = I.sn?)) := by
  cases I <;> cases e <;>
    simp [UsbDeviceIdentifier.vid, UsbDeviceIdentifier.pid,
      UsbDeviceIdentifier.sn?, and_assoc]

/-- C6: a registry snapshot matches a target identifier iff some entry
has equal vendor and product ids and, when the target carries a
serial-number constraint, that entry's serial equals the target's
exactly; a target without a serial constraint is satisfied by an entry
with any serial number, including none. -/
theorem registryMatches_iff_entry_exists
    (R : List UsbDeviceIdentifier) (I : UsbDeviceIdentifier) :
    registryMatches R I = true ↔
      ∃ e ∈ R, e.vid = I.vid ∧ e.pid = I.pid ∧
        (I.sn? = none ∨ e.sn? = I.sn?) := by
  unfold registryMatches
  rw [List.any_eq_true]
  constructor
  · rintro ⟨e, he, hpred⟩
    exact ⟨e, he, (entry_matches_target_iff e I).mp hpred⟩
  · rintro ⟨e, he, hspec⟩
    exact ⟨e, he, (entry_matches_target_iff e I).mpr hspec⟩

/-- Witness for C6: a serial-carrying entry satisfies a serial-less
target with the same ids. -/
theorem registryMatches_iff_entry_exists_witness :
    registryMatches
      [.VidPidSn 1662 2057 "ABC", .VidPid 3 4] (.VidPid 1662 2057) = true :=
  (registryMatches_iff_entry_exists
      [.VidPidSn 1662 2057 "ABC", .VidPid 3 4] (.VidPid 1662 2057)).mpr
    ⟨.VidPidSn 1662 2057 "ABC", by decide, rfl, rfl, Or.inl rfl⟩

end ScannerServer
